import Mathlib

/-!
Verification of the conversation session controller of the QAChat-bot
repository (files `app.py`, `gemini_functions.py`, `supabase_functions.py`).

The Python code is shallowly embedded as pure Lean functions:

* A chat `Message` is a record `role`/`content` (the Python dict
  appended by `add_message_to_history`).
* The Supabase backend is modelled as an optional in-memory `Database`
  (the `client` attribute: `none` when credentials are missing).  Rows are
  kept newest-first, which realises the `order by created_at desc`
  ordering that `load_conversations` requests; `created_at` is the value
  of a monotone counter that also supplies fresh ids, so conversation
  identity is never reused.  Each remote round trip may raise: the
  `try/except` blocks are modelled by an explicit `fail` flag supplied by
  the environment (the `Oracle` below), and the `except` branch of every
  method is translated literally.
* The Gemini backend call `generate_content` either returns a token
  stream or raises; a returned stream delivers a list of chunk texts and
  then either ends normally or raises mid-iteration (`StreamOutcome`).
* The Streamlit session state (`chat_history`, `current_conversation_id`,
  `conversations`, `needs_name_update`) plus both managers form
  `AppState`.  Session-controller functions of `app.py` become functions
  `AppState → ... → AppState`.  Every call the controller makes across an
  adapter boundary is recorded in a `calls` log so that claims about
  "a persistence write is issued" / "no adapter call is made" are
  directly observable.

UI-only side effects (`st.error`, `st.markdown`, placeholders, the
typing indicator) have no bearing on state and are elided; `updated_at`
timestamps are elided because no claim mentions them.
-/

/-- One chat message, `{"role": ..., "content": ...}` in `app.py`. -/
structure Message where
  role : String
  content : String
deriving DecidableEq, Repr

/-- A row of the `conversations` table. `updated_at` is elided (no claim
uses it). -/
structure ConversationRecord where
  id : String
  name : String
  chat_history : List Message
  created_at : Nat
deriving DecidableEq, Repr

/-- The in-memory model of the Supabase `conversations` table.  `rows` is
kept newest-first (insertions go to the head), so returning `rows` as-is
realises `order by created_at desc`.  `nextId` is a monotone counter used
both as the backend-assigned id and as the `created_at` stamp. -/
structure Database where
  rows : List ConversationRecord
  nextId : Nat
deriving DecidableEq, Repr

/-- `SupabaseManager` of `supabase_functions.py`: `client` is `none` when
the credentials are absent or `create_client` failed. -/
structure SupabaseManager where
  client : Option Database
deriving DecidableEq, Repr

/-- `SupabaseManager.create_conversation`.  The Python default
`chat_history=None` with `chat_history or []` maps `none` (and `some []`)
to `[]`.  `fail` models the remote insert raising: the `except` branch
returns `None` and leaves the table unchanged. -/
def SupabaseManager.create_conversation (sb : SupabaseManager) (name : String)
    (chat_history : Option (List Message)) (fail : Bool) :
    Option ConversationRecord × SupabaseManager :=
  match sb.client with
  | none => (none, sb)
  | some db =>
    if fail then (none, sb)
    else
      let r : ConversationRecord :=
        { id := toString db.nextId, name := name,
          chat_history := chat_history.getD [], created_at := db.nextId }
      (some r, ⟨some { rows := r :: db.rows, nextId := db.nextId + 1 }⟩)

/-- `SupabaseManager.load_conversations`: all rows ordered by
`created_at` descending; `[]` when the client is missing or the select
raises. -/
def SupabaseManager.load_conversations (sb : SupabaseManager) (fail : Bool) :
    List ConversationRecord :=
  match sb.client with
  | none => []
  | some db => if fail then [] else db.rows

/-- `SupabaseManager.load_conversation`: select by id, first match or
`None`. -/
def SupabaseManager.load_conversation (sb : SupabaseManager) (cid : String)
    (fail : Bool) : Option ConversationRecord :=
  match sb.client with
  | none => none
  | some db =>
    if fail then none
    else
      match db.rows.filter (fun r => r.id = cid) with
      | [] => none
      | r :: _ => some r

/-- `SupabaseManager.update_conversation`: overwrite `chat_history` of the
matching rows; the returned Bool is `bool(result.data)`, i.e. whether any
row matched. -/
def SupabaseManager.update_conversation (sb : SupabaseManager) (cid : String)
    (hist : List Message) (fail : Bool) : Bool × SupabaseManager :=
  match sb.client with
  | none => (false, sb)
  | some db =>
    if fail then (false, sb)
    else
      (db.rows.any (fun r => r.id = cid),
       ⟨some { db with
               rows := db.rows.map
                 (fun r => if r.id = cid then { r with chat_history := hist } else r) }⟩)

/-- `SupabaseManager.delete_conversation`: returns `True` whenever the
remote call goes through (also when no row matched — deletion is
idempotent), `False` when the client is missing or the call raises. -/
def SupabaseManager.delete_conversation (sb : SupabaseManager) (cid : String)
    (fail : Bool) : Bool × SupabaseManager :=
  match sb.client with
  | none => (false, sb)
  | some db =>
    if fail then (false, sb)
    else (true, ⟨some { db with rows := db.rows.filter (fun r => r.id ≠ cid) }⟩)

/-- The placeholder branch of `generate_conversation_name`: a fresh count
fetch via `load_conversations`, then the string `New Chat` followed by
count + 1. -/
def SupabaseManager.new_chat_name (sb : SupabaseManager) (listFail : Bool) : String :=
  "New Chat " ++ toString ((SupabaseManager.load_conversations sb listFail).length + 1)

/-- `SupabaseManager.generate_conversation_name`.  Python's
`if first_message:` is truthiness: it takes the message branch only when
the argument is neither `None` nor the empty string.  The slice
`first_message[:30]` takes the first 30 characters, embedded at the
character-list level. -/
def SupabaseManager.generate_conversation_name (sb : SupabaseManager)
    (first_message : Option String) (listFail : Bool) : String :=
  match first_message with
  | some m =>
    if m != "" then
      if m.length > 30 then String.mk (m.data.take 30) ++ "..." else m
    else
      SupabaseManager.new_chat_name sb listFail
  | none => SupabaseManager.new_chat_name sb listFail

/-- `SupabaseManager.update_conversation_name`: overwrite `name` of the
matching rows; Bool result as in `update_conversation`. -/
def SupabaseManager.update_conversation_name (sb : SupabaseManager) (cid : String)
    (new_name : String) (fail : Bool) : Bool × SupabaseManager :=
  match sb.client with
  | none => (false, sb)
  | some db =>
    if fail then (false, sb)
    else
      (db.rows.any (fun r => r.id = cid),
       ⟨some { db with
               rows := db.rows.map
                 (fun r => if r.id = cid then { r with name := new_name } else r) }⟩)

/-- `GeminiManager` of `gemini_functions.py`.  `model` records whether
`self.model` is set (it is set exactly when `configure_api_key`
succeeded, together with `api_key_configured`). -/
structure GeminiManager where
  model : Bool
  api_key_configured : Bool
deriving DecidableEq, Repr

/-- Behaviour of one token stream returned by the backend: the chunk
texts delivered by iteration, and `streamError = some e` when the
iteration raises (message `e`) after delivering exactly those chunks. -/
structure StreamOutcome where
  frags : List String
  streamError : Option String
deriving DecidableEq, Repr

/-- Behaviour of one `generate_content` call: either a stream is
returned, or the call itself raises. -/
inductive GenOutcome where
  | stream (s : StreamOutcome)
  | raised (e : String)
deriving DecidableEq, Repr

/-- `GeminiManager.generate_response`: fails fast with
"API key not configured" unless both the flag and the model are set;
otherwise the environment decides whether `generate_content` returns a
stream or raises. -/
def GeminiManager.generate_response (g : GeminiManager) (world : GenOutcome) :
    Option StreamOutcome × Option String :=
  if !g.api_key_configured || !g.model then
    (none, some "API key not configured")
  else
    match world with
    | GenOutcome.stream s => (some s, none)
    | GenOutcome.raised e => (none, some ("Error generating response: " ++ e))

/-- The accumulation loop of `display_streaming_response`:
`full_response += chunk.text` guarded by `if chunk.text:` (chunks with
empty text are skipped). -/
def consumeChunks (full_response : String) : List String → String
  | [] => full_response
  | chunk :: rest =>
      consumeChunks (if chunk != "" then full_response ++ chunk else full_response) rest

/-- `GeminiManager.display_streaming_response`: returns the accumulated
text.  On a mid-iteration exception the `except` branch also returns
`full_response`, which at that point is the fold over exactly the chunks
delivered before the failure — so the result is the same fold whether or
not `streamError` is set; only the UI error banner differs. -/
def GeminiManager.display_streaming_response (s : StreamOutcome) : String :=
  consumeChunks "" s.frags

/-- Environment choices for one controller operation: whether each kind
of remote round trip raises, and the outcome of the generation call. -/
structure Oracle where
  createFail : Bool
  listFail : Bool
  renameFail : Bool
  updateFail : Bool
  deleteFail : Bool
  gen : GenOutcome
deriving DecidableEq, Repr

/-- One call the controller makes across an adapter boundary (a
`supabase_manager.*` or `gemini_manager.generate_response` invocation in
`app.py`), recorded for observability of the claims about calls. -/
inductive AdapterCall where
  | createConv (name : String)
  | listConvs
  | loadConv (cid : String)
  | updateConv (cid : String) (hist : List Message)
  | deleteConv (cid : String)
  | renameConv (cid : String) (new_name : String)
  | deriveName (first_message : Option String)
  | generate (prompt : String)
deriving DecidableEq, Repr

/-- The Streamlit session state of `app.py` plus the two managers and the
adapter-call log. -/
structure AppState where
  chat_history : List Message
  current_conversation_id : Option String
  conversations : List ConversationRecord
  needs_name_update : Bool
  sb : SupabaseManager
  gemini : GeminiManager
  calls : List AdapterCall
deriving DecidableEq, Repr

/-- `load_conversations` of `app.py`: refresh the cached list from the
adapter. -/
def App.load_conversations (st : AppState) (listFail : Bool) : AppState :=
  { st with conversations := SupabaseManager.load_conversations st.sb listFail,
            calls := st.calls ++ [AdapterCall.listConvs] }

/-- `save_conversation` of `app.py`: guarded on a non-null
`current_conversation_id` (backend-assigned ids are nonempty strings, so
Python truthiness coincides with `isSome`), then one `update_conversation`
round trip with the full current history. -/
def App.save_conversation (st : AppState) (updateFail : Bool) : AppState :=
  match st.current_conversation_id with
  | some cid =>
    { st with sb := (SupabaseManager.update_conversation st.sb cid st.chat_history updateFail).2,
              calls := st.calls ++ [AdapterCall.updateConv cid st.chat_history] }
  | none => st

/-- `add_message_to_history` of `app.py`: append, then best-effort save
whenever a conversation is active. -/
def App.add_message_to_history (st : AppState) (role content : String)
    (updateFail : Bool) : AppState :=
  let st1 := { st with chat_history := st.chat_history ++ [Message.mk role content] }
  match st1.current_conversation_id with
  | some _ => App.save_conversation st1 updateFail
  | none => st1

/-- `create_new_conversation` of `app.py` (its `first_message` parameter
is unused in the source and elided).  Derives a placeholder name, asks the
adapter to create a record; only on a truthy result does it adopt the new
id, reset the history, set `needs_name_update` and refresh the cached
list. -/
def App.create_new_conversation (st : AppState) (o : Oracle) : AppState :=
  let name := SupabaseManager.generate_conversation_name st.sb none o.listFail
  let res := SupabaseManager.create_conversation st.sb name none o.createFail
  let st1 :=
    { st with sb := res.2,
              calls := st.calls ++ [AdapterCall.deriveName none, AdapterCall.createConv name] }
  match res.1 with
  | some r =>
    App.load_conversations
      { st1 with current_conversation_id := some r.id, chat_history := [],
                 needs_name_update := true }
      o.listFail
  | none => st1

/-- `load_conversation` of `app.py`: switch to a conversation only when
the adapter returns a record. -/
def App.load_conversation (st : AppState) (cid : String) (loadFail : Bool) : AppState :=
  let st1 := { st with calls := st.calls ++ [AdapterCall.loadConv cid] }
  match SupabaseManager.load_conversation st1.sb cid loadFail with
  | some r => { st1 with current_conversation_id := some cid, chat_history := r.chat_history }
  | none => st1

/-- `delete_conversation` of `app.py`: only when the adapter delete
returns `True` does it clear the active session (if the deleted id was
active) and refresh the cached list. -/
def App.delete_conversation (st : AppState) (cid : String) (o : Oracle) : AppState :=
  let res := SupabaseManager.delete_conversation st.sb cid o.deleteFail
  let st1 := { st with sb := res.2, calls := st.calls ++ [AdapterCall.deleteConv cid] }
  if res.1 then
    let st2 :=
      if st1.current_conversation_id = some cid then
        { st1 with current_conversation_id := none, chat_history := [] }
      else st1
    App.load_conversations st2 o.listFail
  else st1

/-- The lazy-creation step of `handle_user_input`: create a conversation
when none is active. -/
def App.ensure_conversation (st : AppState) (o : Oracle) : AppState :=
  match st.current_conversation_id with
  | none => App.create_new_conversation st o
  | some _ => st

/-- The rename step of `handle_user_input`: guarded by
`if st.session_state.needs_name_update and prompt:` — so an empty prompt
skips the rename and leaves the flag set.  Derives the real name from the
prompt, persists the rename (result ignored), clears the flag, refreshes
the cached list. -/
def App.maybe_update_name (st : AppState) (prompt : String) (o : Oracle) : AppState :=
  if st.needs_name_update && (prompt != "") then
    let new_name := SupabaseManager.generate_conversation_name st.sb (some prompt) o.listFail
    let cidv := st.current_conversation_id.getD ""
    App.load_conversations
      { st with sb := (SupabaseManager.update_conversation_name st.sb cidv new_name o.renameFail).2,
                needs_name_update := false,
                calls := st.calls ++ [AdapterCall.deriveName (some prompt),
                                      AdapterCall.renameConv cidv new_name] }
      o.listFail
  else st

/-- The response step of `handle_user_input`: call `generate_response`;
on an error value append the error text as the assistant message, else
consume the stream and append the accumulated text. -/
def App.respond (st : AppState) (prompt : String) (o : Oracle) : AppState :=
  let st1 := { st with calls := st.calls ++ [AdapterCall.generate prompt] }
  match GeminiManager.generate_response st1.gemini o.gen with
  | (_, some e) => App.add_message_to_history st1 "assistant" e o.updateFail
  | (response, none) =>
      App.add_message_to_history st1 "assistant"
        (GeminiManager.display_streaming_response (response.getD (StreamOutcome.mk [] none)))
        o.updateFail

/-- `handle_user_input` of `app.py`: fail fast when the API key is not
configured (nothing mutated), else lazily create a conversation, maybe
rename it from the first prompt, append the user message (with
best-effort persist), then generate and append the assistant message. -/
def App.handle_user_input (st : AppState) (prompt : String) (o : Oracle) : AppState :=
  if !st.gemini.api_key_configured then st
  else
    App.respond
      (App.add_message_to_history
        (App.maybe_update_name (App.ensure_conversation st o) prompt o)
        "user" prompt o.updateFail)
      prompt o

/-! ## Specification-side definitions -/

/-- Plain concatenation of a fragment list in arrival order — the
specification's description of stream assembly, used to compare against
the implementation's accumulation loop. -/
def concatAll : List String → String
  | [] => ""
  | c :: cs => c ++ concatAll cs

/-! ## Concrete fixtures used by witnesses and counterexamples -/

/-- An empty backend table whose id counter starts at 1. -/
def exDb : Database := { rows := [], nextId := 1 }

/-- A record as the backend would create it from `exDb`. -/
def exRecord : ConversationRecord :=
  { id := "1", name := "New Chat 1", chat_history := [], created_at := 1 }

/-- A configured persistence adapter over the empty table. -/
def exSb : SupabaseManager := ⟨some exDb⟩

/-- A configured persistence adapter holding one conversation. -/
def exSb1 : SupabaseManager := ⟨some { rows := [exRecord], nextId := 2 }⟩

/-- An unconfigured persistence adapter (missing credentials). -/
def exSbNone : SupabaseManager := ⟨none⟩

/-- A configured generation adapter. -/
def exGemini : GeminiManager := { model := true, api_key_configured := true }

/-- An unconfigured generation adapter. -/
def exGeminiOff : GeminiManager := { model := false, api_key_configured := false }

/-- An environment in which every remote call succeeds and generation
streams one fragment. -/
def exOracle : Oracle :=
  { createFail := false, listFail := false, renameFail := false,
    updateFail := false, deleteFail := false,
    gen := GenOutcome.stream ⟨["ok"], none⟩ }

/-- An environment whose generation stream delivers two fragments and
then raises mid-iteration with message "boom". -/
def exOracleMidFail : Oracle :=
  { exOracle with gen := GenOutcome.stream ⟨["Par", "tial"], some "boom"⟩ }

/-- A session with one active conversation and both adapters configured. -/
def exStateActive : AppState :=
  { chat_history := [], current_conversation_id := some "1",
    conversations := [exRecord], needs_name_update := false,
    sb := exSb1, gemini := exGemini, calls := [] }

/-- A session in the Empty state with both adapters configured. -/
def exStateEmpty : AppState :=
  { chat_history := [], current_conversation_id := none,
    conversations := [], needs_name_update := false,
    sb := exSb, gemini := exGemini, calls := [] }

/-- An active session whose persistence adapter is unconfigured. -/
def exStateNoClient : AppState :=
  { exStateActive with sb := exSbNone, chat_history := [Message.mk "user" "hi"] }

/-! ## General lemmas about the embedding -/

/-- The accumulation loop equals plain concatenation: skipping empty
chunks does not change the assembled text. -/
theorem consumeChunks_eq (acc : String) (l : List String) :
    consumeChunks acc l = acc ++ concatAll l := by
  induction l generalizing acc with
  | nil => simp [consumeChunks, concatAll, String.append_empty]
  | cons c cs ih =>
    by_cases hc : c = ""
    · subst hc
      simp [consumeChunks, concatAll, ih, String.empty_append]
    · have hbne : (c != "") = true := by simp [bne_iff_ne, hc]
      simp [consumeChunks, hbne, ih, concatAll, String.append_assoc]

/-- `save_conversation` only touches the persistence adapter and the call
log. -/
theorem save_conversation_fields (st : AppState) (f : Bool) :
    (App.save_conversation st f).gemini = st.gemini ∧
    (App.save_conversation st f).chat_history = st.chat_history ∧
    (App.save_conversation st f).needs_name_update = st.needs_name_update ∧
    (App.save_conversation st f).current_conversation_id = st.current_conversation_id := by
  unfold App.save_conversation
  cases h : st.current_conversation_id <;> simp [h]

/-- `add_message_to_history` appends exactly one message and touches no
other session field. -/
theorem add_message_fields (st : AppState) (role content : String) (f : Bool) :
    (App.add_message_to_history st role content f).gemini = st.gemini ∧
    (App.add_message_to_history st role content f).chat_history
      = st.chat_history ++ [Message.mk role content] ∧
    (App.add_message_to_history st role content f).needs_name_update = st.needs_name_update ∧
    (App.add_message_to_history st role content f).current_conversation_id
      = st.current_conversation_id := by
  unfold App.add_message_to_history App.save_conversation
  cases h : st.current_conversation_id <;> simp [h]

/-- The appended-history component of `add_message_fields`. -/
theorem add_message_history (st : AppState) (role content : String) (f : Bool) :
    (App.add_message_to_history st role content f).chat_history
      = st.chat_history ++ [Message.mk role content] :=
  (add_message_fields st role content f).2.1

/-- The generation-adapter component of `add_message_fields`. -/
theorem add_message_gemini (st : AppState) (role content : String) (f : Bool) :
    (App.add_message_to_history st role content f).gemini = st.gemini :=
  (add_message_fields st role content f).1

/-- The naming-flag component of `add_message_fields`. -/
theorem add_message_needs (st : AppState) (role content : String) (f : Bool) :
    (App.add_message_to_history st role content f).needs_name_update
      = st.needs_name_update :=
  (add_message_fields st role content f).2.2.1

/-- Refreshing the cached list touches neither the transcript, the active
id, the naming flag, nor the adapters. -/
theorem load_conversations_fields (st : AppState) (f : Bool) :
    (App.load_conversations st f).gemini = st.gemini ∧
    (App.load_conversations st f).chat_history = st.chat_history ∧
    (App.load_conversations st f).needs_name_update = st.needs_name_update ∧
    (App.load_conversations st f).current_conversation_id = st.current_conversation_id :=
  ⟨rfl, rfl, rfl, rfl⟩

/-- The response step never changes the naming flag, the active id, or
the generation adapter, whatever the generation outcome. -/
theorem respond_fields (st : AppState) (prompt : String) (o : Oracle) :
    (App.respond st prompt o).gemini = st.gemini ∧
    (App.respond st prompt o).needs_name_update = st.needs_name_update ∧
    (App.respond st prompt o).current_conversation_id = st.current_conversation_id := by
  unfold App.respond
  dsimp only
  split
  · exact ⟨add_message_gemini _ _ _ _, add_message_needs _ _ _ _,
      (add_message_fields _ _ _ _).2.2.2⟩
  · exact ⟨add_message_gemini _ _ _ _, add_message_needs _ _ _ _,
      (add_message_fields _ _ _ _).2.2.2⟩

/-- When generation is configured and returns a stream, the response step
appends one assistant message whose content is the concatenation of the
delivered fragments — whether or not the stream then raised. -/
theorem respond_history_stream (st : AppState) (prompt : String) (o : Oracle)
    (frags : List String) (err : Option String)
    (hcfg : st.gemini.api_key_configured = true) (hm : st.gemini.model = true)
    (hgen : o.gen = GenOutcome.stream ⟨frags, err⟩) :
    (App.respond st prompt o).chat_history
      = st.chat_history ++ [Message.mk "assistant" (concatAll frags)] := by
  simp [App.respond, GeminiManager.generate_response, hcfg, hm, hgen,
        add_message_history, GeminiManager.display_streaming_response,
        consumeChunks_eq, String.empty_append]

/-- The generation adapter is untouched by conversation creation. -/
theorem create_new_conversation_gemini (st : AppState) (o : Oracle) :
    (App.create_new_conversation st o).gemini = st.gemini := by
  unfold App.create_new_conversation App.load_conversations
  dsimp only
  split <;> rfl

/-- The generation adapter is untouched by the lazy-creation step. -/
theorem ensure_conversation_gemini (st : AppState) (o : Oracle) :
    (App.ensure_conversation st o).gemini = st.gemini := by
  unfold App.ensure_conversation
  split
  · exact create_new_conversation_gemini _ _
  · rfl

/-- The generation adapter is untouched by the rename step. -/
theorem maybe_update_name_gemini (st : AppState) (prompt : String) (o : Oracle) :
    (App.maybe_update_name st prompt o).gemini = st.gemini := by
  unfold App.maybe_update_name App.load_conversations
  dsimp only
  split <;> rfl

/-- A successful creation adopts the fresh backend id, resets the
transcript, and raises the naming flag. -/
theorem create_new_conversation_success (st : AppState) (o : Oracle) (db : Database)
    (hc : st.sb.client = some db) (hf : o.createFail = false) :
    (App.create_new_conversation st o).needs_name_update = true ∧
    (App.create_new_conversation st o).current_conversation_id
      = some (toString db.nextId) ∧
    (App.create_new_conversation st o).chat_history = [] := by
  simp [App.create_new_conversation, SupabaseManager.create_conversation, hc, hf,
        App.load_conversations]

/-- When the naming flag is set and the prompt is nonempty, the rename
step clears the flag. -/
theorem maybe_update_name_clears (st : AppState) (prompt : String) (o : Oracle)
    (hn : st.needs_name_update = true) (hp : prompt ≠ "") :
    (App.maybe_update_name st prompt o).needs_name_update = false := by
  simp [App.maybe_update_name, hn, hp, App.load_conversations]


/-- With the key configured, `handle_user_input` is the composition of
its four steps. -/
theorem handle_user_input_configured (st : AppState) (prompt : String) (o : Oracle)
    (hcfg : st.gemini.api_key_configured = true) :
    App.handle_user_input st prompt o
      = App.respond
          (App.add_message_to_history
            (App.maybe_update_name (App.ensure_conversation st o) prompt o)
            "user" prompt o.updateFail)
          prompt o := by
  simp [App.handle_user_input, hcfg]

/-- The lazy-creation step is the identity when a conversation is
active. -/
theorem ensure_conversation_active (st : AppState) (cid : String)
    (h : st.current_conversation_id = some cid) :
    App.ensure_conversation st o = st := by
  unfold App.ensure_conversation
  rw [h]

/-- A failed insert leaves the persistence adapter unchanged. -/
theorem create_conversation_none_sb (sb : SupabaseManager) (name : String)
    (hist : Option (List Message)) (f : Bool)
    (h : (SupabaseManager.create_conversation sb name hist f).1 = none) :
    (SupabaseManager.create_conversation sb name hist f).2 = sb := by
  unfold SupabaseManager.create_conversation at h ⊢
  cases hc : sb.client with
  | none => rfl
  | some db =>
    rw [hc] at h
    by_cases hf : f = true
    · simp [hf]
    · simp [hf] at h

/-- A failed delete leaves the persistence adapter unchanged. -/
theorem delete_conversation_fail_sb (sb : SupabaseManager) (cid : String) (f : Bool)
    (h : (SupabaseManager.delete_conversation sb cid f).1 = false) :
    (SupabaseManager.delete_conversation sb cid f).2 = sb := by
  unfold SupabaseManager.delete_conversation at h ⊢
  cases hc : sb.client with
  | none => rfl
  | some db =>
    rw [hc] at h
    by_cases hf : f = true
    · simp [hf]
    · simp [hf] at h

/-! ## The claims -/

/-- C2: for every session state, if the Streaming Response Adapter is not
configured then `handle_user_input` (the controller's `submitUserMessage`)
returns the state completely unchanged — transcript, active id, naming
flag, cached conversation list, both adapters and the adapter-call log
all keep their prior values, so in particular no adapter call is made. -/
theorem C2_unconfigured_no_mutation (st : AppState) (prompt : String) (o : Oracle)
    (h : st.gemini.api_key_configured = false) :
    App.handle_user_input st prompt o = st := by
  simp [App.handle_user_input, h]

/-- A session whose generation adapter is unconfigured. -/
def exStateOff : AppState := { exStateEmpty with gemini := exGeminiOff }

/-- Witness for C2 at a concrete unconfigured session. -/
theorem C2_witness :
    App.handle_user_input exStateOff "hi" exOracle = exStateOff :=
  C2_unconfigured_no_mutation exStateOff "hi" exOracle rfl

/-- C3 counterexample: the claim says a supplied empty first message is
returned unchanged, but `generate_conversation_name` treats the empty
string as absent (Python truthiness) and returns the placeholder
"New Chat 1" instead of "". -/
theorem C3_counterexample :
    SupabaseManager.generate_conversation_name exSb (some "") false = "New Chat 1" ∧
    "New Chat 1" ≠ "" := by
  exact ⟨rfl, by decide⟩

/-- C3 (amended): for every supplied nonempty first message the derived
name is the first 30 characters followed by the ellipsis marker when the
message is longer than 30 characters, and the message itself otherwise;
the empty string instead falls through to the placeholder branch. -/
theorem C3_truncation (sb : SupabaseManager) (lf : Bool) (m : String) (hm : m ≠ "") :
    (30 < m.length →
      SupabaseManager.generate_conversation_name sb (some m) lf
        = String.mk (m.data.take 30) ++ "...") ∧
    (m.length ≤ 30 →
      SupabaseManager.generate_conversation_name sb (some m) lf = m) := by
  have hb : (m != "") = true := by simp [bne_iff_ne, hm]
  constructor
  · intro h
    simp [SupabaseManager.generate_conversation_name, hb, h]
  · intro h
    simp [SupabaseManager.generate_conversation_name, hb, Nat.not_lt.mpr h]

/-- Witness for C3 on the specification's own examples: a 37-character
message is truncated to its first 30 characters plus the marker, and
"Hi" is returned unchanged. -/
theorem C3_witness :
    SupabaseManager.generate_conversation_name exSb
        (some "Hello there, how are you today friend") false
      = "Hello there, how are you today..." ∧
    SupabaseManager.generate_conversation_name exSb (some "Hi") false = "Hi" := by
  constructor
  · have h := (C3_truncation exSb false "Hello there, how are you today friend"
      (by decide)).1 (by decide)
    rw [h]
    rfl
  · exact (C3_truncation exSb false "Hi" (by decide)).2 (by decide)

/-- C4: with no first message the derived default name is exactly the
string "New Chat " followed by k + 1, where k is the conversation count
reported by the fresh `load_conversations` fetch. -/
theorem C4_placeholder_name (sb : SupabaseManager) (lf : Bool) (k : Nat)
    (hk : (SupabaseManager.load_conversations sb lf).length = k) :
    SupabaseManager.generate_conversation_name sb none lf
      = "New Chat " ++ toString (k + 1) := by
  simp [SupabaseManager.generate_conversation_name, SupabaseManager.new_chat_name, hk]

/-- Witness for C4: zero conversations give "New Chat 1", one existing
conversation gives "New Chat 2". -/
theorem C4_witness :
    SupabaseManager.generate_conversation_name exSb none false = "New Chat 1" ∧
    SupabaseManager.generate_conversation_name exSb1 none false = "New Chat 2" := by
  constructor
  · rw [C4_placeholder_name exSb false 0 rfl]
    rfl
  · rw [C4_placeholder_name exSb1 false 1 rfl]
    rfl

/-- C7: after every message append, when a conversation id is active the
controller issues exactly one persistence write carrying the full updated
transcript for that id; when no conversation is active, no persistence
call is issued. -/
theorem C7_persist_on_append (st : AppState) (role content : String) (f : Bool) :
    (∀ cid, st.current_conversation_id = some cid →
      (App.add_message_to_history st role content f).calls
        = st.calls
            ++ [AdapterCall.updateConv cid (st.chat_history ++ [Message.mk role content])]) ∧
    (st.current_conversation_id = none →
      (App.add_message_to_history st role content f).calls = st.calls) := by
  constructor
  · intro cid hcid
    simp [App.add_message_to_history, App.save_conversation, hcid]
  · intro hnone
    simp [App.add_message_to_history, App.save_conversation, hnone]

/-- Witness for C7 at a concrete active session. -/
theorem C7_witness :
    (App.add_message_to_history exStateActive "user" "hi" false).calls
      = [AdapterCall.updateConv "1" [Message.mk "user" "hi"]] := by
  rw [(C7_persist_on_append exStateActive "user" "hi" false).1 "1" rfl]
  rfl

/-- C8: consuming a stream that terminates normally returns the
concatenation of its fragments in arrival order. -/
theorem C8_stream_accumulation (s : StreamOutcome) (_h : s.streamError = none) :
    GeminiManager.display_streaming_response s = concatAll s.frags := by
  unfold GeminiManager.display_streaming_response
  rw [consumeChunks_eq]
  exact String.empty_append _

/-- Witness for C8 on the specification's example fragments. -/
theorem C8_witness :
    GeminiManager.display_streaming_response ⟨["Hel", "lo, ", "world"], none⟩
      = "Hello, world" := by
  rw [C8_stream_accumulation ⟨["Hel", "lo, ", "world"], none⟩ rfl]
  rfl

/-- C9: when `create_conversation` returns no record, the controller's
conversation creation leaves the whole session unchanged: active id,
transcript, naming flag, cached list, and the persistence adapter keep
their prior values. -/
theorem C9_create_failure_no_mutation (st : AppState) (o : Oracle)
    (h : (SupabaseManager.create_conversation st.sb
            (SupabaseManager.generate_conversation_name st.sb none o.listFail)
            none o.createFail).1 = none) :
    (App.create_new_conversation st o).current_conversation_id
        = st.current_conversation_id ∧
    (App.create_new_conversation st o).chat_history = st.chat_history ∧
    (App.create_new_conversation st o).needs_name_update = st.needs_name_update ∧
    (App.create_new_conversation st o).conversations = st.conversations ∧
    (App.create_new_conversation st o).sb = st.sb := by
  have hsb := create_conversation_none_sb _ _ _ _ h
  simp [App.create_new_conversation, h, hsb]

/-- Witness for C9 at a session whose persistence backend is
unconfigured, so creation returns no record. -/
theorem C9_witness :
    (App.create_new_conversation exStateNoClient exOracle).current_conversation_id
        = exStateNoClient.current_conversation_id ∧
    (App.create_new_conversation exStateNoClient exOracle).chat_history
        = exStateNoClient.chat_history ∧
    (App.create_new_conversation exStateNoClient exOracle).needs_name_update
        = exStateNoClient.needs_name_update ∧
    (App.create_new_conversation exStateNoClient exOracle).conversations
        = exStateNoClient.conversations ∧
    (App.create_new_conversation exStateNoClient exOracle).sb = exStateNoClient.sb :=
  C9_create_failure_no_mutation exStateNoClient exOracle rfl

/-- C10: switching conversation replaces the active id and transcript
only when the adapter load returns a record; on a missing result both are
left unchanged. -/
theorem C10_switch_only_on_success (st : AppState) (cid : String) (lf : Bool) :
    (SupabaseManager.load_conversation st.sb cid lf = none →
      (App.load_conversation st cid lf).current_conversation_id
          = st.current_conversation_id ∧
      (App.load_conversation st cid lf).chat_history = st.chat_history) ∧
    (∀ r, SupabaseManager.load_conversation st.sb cid lf = some r →
      (App.load_conversation st cid lf).current_conversation_id = some cid ∧
      (App.load_conversation st cid lf).chat_history = r.chat_history) := by
  constructor
  · intro h
    simp [App.load_conversation, h]
  · intro r h
    simp [App.load_conversation, h]

/-- Witness for C10: a failed load on the empty table leaves the session
alone, and a successful load of the stored record replaces id and
transcript. -/
theorem C10_witness :
    ((App.load_conversation exStateEmpty "1" false).current_conversation_id = none ∧
     (App.load_conversation exStateEmpty "1" false).chat_history = []) ∧
    ((App.load_conversation exStateActive "1" false).current_conversation_id = some "1" ∧
     (App.load_conversation exStateActive "1" false).chat_history = []) :=
  ⟨(C10_switch_only_on_success exStateEmpty "1" false).1 rfl,
   (C10_switch_only_on_success exStateActive "1" false).2 exRecord rfl⟩

/-- C1 counterexample: with a configured session, a stream that delivers
the fragments "Par" and "tial" and then raises with message "boom" makes
the controller append an assistant message whose content is the partial
text "Partial" — not the error text, contradicting the claim. -/
theorem C1_counterexample :
    exOracleMidFail.gen = GenOutcome.stream ⟨["Par", "tial"], some "boom"⟩ ∧
    (App.handle_user_input exStateActive "hi" exOracleMidFail).chat_history
      = [Message.mk "user" "hi", Message.mk "assistant" "Partial"] ∧
    "Partial" ≠ "boom" ∧
    "Partial" ≠ "Error in streaming response: boom" := by
  refine ⟨rfl, ?_, by decide, by decide⟩
  rfl

/-- C1 (amended): when the token stream fails mid-consumption after some
fragments have been received, the assistant message appended to the
transcript has as content the accumulated partial text — the
concatenation of the fragments delivered before the failure point — and
the error is only surfaced to the UI, never appended. -/
theorem C1_partial_preserved (st : AppState) (prompt : String) (o : Oracle)
    (frags : List String) (e : String)
    (hcfg : st.gemini.api_key_configured = true) (hm : st.gemini.model = true)
    (hgen : o.gen = GenOutcome.stream ⟨frags, some e⟩) :
    (App.handle_user_input st prompt o).chat_history.getLast?
      = some (Message.mk "assistant" (concatAll frags)) := by
  rw [handle_user_input_configured st prompt o hcfg]
  set st3 := App.add_message_to_history
      (App.maybe_update_name (App.ensure_conversation st o) prompt o)
      "user" prompt o.updateFail with h3
  have hg3 : st3.gemini = st.gemini := by
    rw [h3, add_message_gemini, maybe_update_name_gemini, ensure_conversation_gemini]
  rw [respond_history_stream st3 prompt o frags (some e)
        (by rw [hg3]; exact hcfg) (by rw [hg3]; exact hm) hgen]
  exact List.getLast?_concat _

/-- Witness for C1 (amended) at the same concrete mid-stream failure. -/
theorem C1_witness :
    (App.handle_user_input exStateActive "hi" exOracleMidFail).chat_history.getLast?
      = some (Message.mk "assistant" (concatAll ["Par", "tial"])) :=
  C1_partial_preserved exStateActive "hi" exOracleMidFail ["Par", "tial"] "boom"
    rfl rfl rfl

/-- C5 counterexample: the claim quantifies over the first
`submitUserMessage` regardless of its text, but with an empty prompt the
rename guard `needs_name_update and prompt` is not taken, so the flag is
still true after the call completes even though the adapter is
configured. -/
theorem C5_counterexample :
    (App.create_new_conversation exStateEmpty exOracle).needs_name_update = true ∧
    (App.handle_user_input (App.create_new_conversation exStateEmpty exOracle)
        "" exOracle).needs_name_update = true := by
  exact ⟨rfl, rfl⟩

/-- C5 (amended): `needs_name_update` is true immediately after a
successful conversation creation, and after the first `handle_user_input`
with nonempty text on that conversation completes it is false, whatever
the rename round trip did (the second environment is arbitrary, so the
rename may succeed or fail); an empty-text submission instead leaves the
flag raised. -/
theorem C5_name_flag_lifecycle (st : AppState) (o o2 : Oracle) (db : Database)
    (prompt : String)
    (hc : st.sb.client = some db) (hf : o.createFail = false)
    (hcfg : st.gemini.api_key_configured = true)
    (hp : prompt ≠ "") :
    (App.create_new_conversation st o).needs_name_update = true ∧
    (App.handle_user_input (App.create_new_conversation st o) prompt o2).needs_name_update
      = false := by
  obtain ⟨hn, hid, _⟩ := create_new_conversation_success st o db hc hf
  refine ⟨hn, ?_⟩
  set st1 := App.create_new_conversation st o with h1
  have hcfg1 : st1.gemini.api_key_configured = true := by
    rw [h1, create_new_conversation_gemini]
    exact hcfg
  rw [handle_user_input_configured st1 prompt o2 hcfg1,
      (respond_fields _ _ _).2.1, add_message_needs,
      ensure_conversation_active st1 _ hid]
  exact maybe_update_name_clears st1 prompt o2 hn hp

/-- Witness for C5 (amended) at a concrete fresh session: creation raises
the flag and the first nonempty message clears it. -/
theorem C5_witness :
    (App.create_new_conversation exStateEmpty exOracle).needs_name_update = true ∧
    (App.handle_user_input (App.create_new_conversation exStateEmpty exOracle)
        "hi" exOracle).needs_name_update = false :=
  C5_name_flag_lifecycle exStateEmpty exOracle exOracle exDb "hi" rfl rfl rfl
    (by decide)

/-- C6 counterexample: when the adapter delete fails (here: persistence
backend unconfigured), deleting the active conversation neither resets
the session to Empty nor refreshes the cached conversation list — no
list call is issued — contradicting the claim's "whatever its outcome". -/
theorem C6_counterexample :
    (App.delete_conversation exStateNoClient "1" exOracle).current_conversation_id
      = some "1" ∧
    (App.delete_conversation exStateNoClient "1" exOracle).chat_history
      = [Message.mk "user" "hi"] ∧
    (App.delete_conversation exStateNoClient "1" exOracle).calls
      = [AdapterCall.deleteConv "1"] := by
  exact ⟨rfl, rfl, rfl⟩

/-- C6 (amended): when the adapter delete succeeds, deleting the active
conversation resets the session to Empty and the cached list is refreshed
from the adapter; when the adapter delete fails, the session is left
unchanged and no refresh happens (only the delete call is logged). -/
theorem C6_delete_behavior (st : AppState) (cid : String) (o : Oracle) :
    ((SupabaseManager.delete_conversation st.sb cid o.deleteFail).1 = true →
      (st.current_conversation_id = some cid →
        (App.delete_conversation st cid o).current_conversation_id = none ∧
        (App.delete_conversation st cid o).chat_history = []) ∧
      (App.delete_conversation st cid o).conversations
        = SupabaseManager.load_conversations
            (SupabaseManager.delete_conversation st.sb cid o.deleteFail).2 o.listFail ∧
      (App.delete_conversation st cid o).calls
        = st.calls ++ [AdapterCall.deleteConv cid, AdapterCall.listConvs]) ∧
    ((SupabaseManager.delete_conversation st.sb cid o.deleteFail).1 = false →
      App.delete_conversation st cid o
        = { st with calls := st.calls ++ [AdapterCall.deleteConv cid] }) := by
  constructor
  · intro hok
    by_cases hact : st.current_conversation_id = some cid
    · simp [App.delete_conversation, App.load_conversations, hok, hact]
    · simp [App.delete_conversation, App.load_conversations, hok, hact]
  · intro hbad
    simp [App.delete_conversation, hbad, delete_conversation_fail_sb _ _ _ hbad]

/-- Witness for C6 (amended): deleting the active conversation on a
working backend empties the session and refreshes the list. -/
theorem C6_witness :
    (App.delete_conversation exStateActive "1" exOracle).current_conversation_id
      = none ∧
    (App.delete_conversation exStateActive "1" exOracle).chat_history = [] ∧
    (App.delete_conversation exStateActive "1" exOracle).calls
      = [AdapterCall.deleteConv "1", AdapterCall.listConvs] := by
  obtain ⟨hres, hconv, hcalls⟩ := (C6_delete_behavior exStateActive "1" exOracle).1 rfl
  obtain ⟨ha, hb⟩ := hres rfl
  refine ⟨ha, hb, ?_⟩
  rw [hcalls]
  rfl
